import Mathlib

/-!
# Verification of the data-stream anomaly-detection service (`src/app.py`)

Shallow embedding of the streaming-replay engine, the sliding-window z-score
detector, the shared state store and the query surface of `app.py`.

Modelling conventions:
* Python floats are modelled as exact rationals (`ℚ`); the arithmetic of the
  program (sums, means, divisions, comparisons) is carried out exactly.
* The only irrational operation of the program is the square root inside
  `pd.Series(...).std()`.  We therefore carry the sample *variance*
  (`std ** 2`, a rational) through the embedding and express the test
  `abs(z_score) > z_threshold` with `z = (value - mean) / sqrt(var)` by the
  equivalent squared comparison `(value - mean)^2 > z_threshold^2 * var`;
  the lemma `is_anomaly_iff_sqrt` proves this equivalence against the real
  square root, so nothing is lost by staying in `ℚ`.
* The lock (`with lock:`) serializes every mutation and every snapshot, so
  the externally observable states are exactly the states at the lock
  boundaries; these are generated by the step relation `Reachable`.
* The wall-clock duration of a critical section (`end_time - start_time`)
  is nondeterministic; each tick takes it as an explicit parameter `dt ≥ 0`.
-/

namespace AnomalyApp

/-- One row of the loaded dataset: `{'datetime': ..., 'Current': ...}`
(`load_dataset`, app.py lines 33-39). -/
structure Reading where
  datetime : String
  Current : ℚ
  deriving DecidableEq, Repr

/-- The anomaly threshold `z_threshold = 2.3` (app.py line 19). -/
def z_threshold : ℚ := 23 / 10

/-- Placeholder reading for the (never reached in the engine loop) out-of-range
index case of `data[current_index]`. -/
def default_reading : Reading := ⟨"", 0⟩

/-- The mean `sum(current_values) / len(current_values)` (app.py line 94). -/
def listMean (xs : List ℚ) : ℚ := xs.sum / (xs.length : ℚ)

/-- The square of `pd.Series(current_values).std()` (app.py line 95): sample
variance with `ddof = 1`, i.e. sum of squared deviations from the mean divided
by `n - 1`.  The engine only evaluates it at `n = 50`. -/
def sampleVar (xs : List ℚ) : ℚ :=
  (xs.map (fun x => (x - listMean xs) ^ 2)).sum / ((xs.length : ℚ) - 1)

/-- Function `calculate_z_score` (app.py lines 51-63): `0` when `std == 0`, else
`(value - mean) / std`. -/
def calculate_z_score (value mean std : ℚ) : ℚ :=
  if std = 0 then 0 else (value - mean) / std

/-- The test `abs(calculate_z_score(value, mean, std)) > z_threshold` (app.py lines
98-101) with `std = sqrt var`, expressed over exact rationals: `std == 0` iff
`var = 0`, and for `var > 0` the comparison is squared.  The equivalence with
the real-valued square-root formulation is proved in `is_anomaly_iff_sqrt`. -/
def is_anomaly (value mean var : ℚ) : Bool :=
  if var = 0 then false
  else decide ((value - mean) ^ 2 > z_threshold ^ 2 * var)

/-- The shared mutable state of app.py (lines 12-23): `data_stream`,
`anomaly_flags` (`1` anomalous / `0` normal), `current_index`,
`total_processing_time` (ms) and `processed_points`. -/
structure State where
  data_stream : List Reading
  anomaly_flags : List ℕ
  current_index : ℕ
  total_processing_time : ℚ
  processed_points : ℕ
  deriving DecidableEq, Repr

/-- The initial values of the globals (app.py lines 12-23). -/
def init_state : State :=
  { data_stream := []
    anomaly_flags := []
    current_index := 0
    total_processing_time := 0
    processed_points := 0 }

/-- The flag computed by app.py lines 91-105, as a function of the stream
*after* the append of line 88 (`ds`) and of the appended point itself: if the
stream now holds more than 50 points, classify `data_point` against
`ds[-50:]` (the last 50 entries, which already contain `data_point`); `1` if
anomalous, `0` otherwise (also `0` in the insufficient-history branch).
`l.drop (l.length - 50)` is the translation of the Python slice `l[-50:]`. -/
def tick_flag (ds : List Reading) (data_point : Reading) : ℕ :=
  if ds.length > 50 then
    let current_values := (ds.drop (ds.length - 50)).map Reading.Current
    let mean := listMean current_values
    let var := sampleVar current_values
    if is_anomaly data_point.Current mean var then 1 else 0
  else 0

/-- One iteration of the inner streaming loop of `stream_data` (app.py lines
80-113), i.e. the single mutating critical section of a tick: append
`data[current_index]` to the stream, classify it (`tick_flag`, lines 91-105),
append the flag, accumulate the processing time `dt` (lines 107-111) and
advance the cursor (line 113). -/
def stream_tick (data : List Reading) (s : State) (dt : ℚ) : State :=
  let data_point := data.getD s.current_index default_reading
  let ds := s.data_stream ++ [data_point]
  { data_stream := ds
    anomaly_flags := s.anomaly_flags ++ [tick_flag ds data_point]
    current_index := s.current_index + 1
    total_processing_time := s.total_processing_time + dt
    processed_points := s.processed_points + 1 }

/-- The cycle-reset critical section of `stream_data` (app.py lines 116-121):
executed when the cursor has exhausted the data; zeroes everything. -/
def stream_reset (_s : State) : State := init_state

/-- One transition of the engine at a lock boundary: a tick while
`current_index < len(data)` (the inner `while` guard, line 80), the atomic
cycle reset otherwise. -/
def stream_step (data : List Reading) (s : State) (dt : ℚ) : State :=
  if s.current_index < data.length then stream_tick data s dt else stream_reset s

/-- The externally observable states of the shared store: the states at lock
boundaries generated from the initial globals by engine transitions (the
snapshot endpoints acquire the same lock, so they can only ever observe such
a state). -/
inductive Reachable (data : List Reading) : State → Prop
  | init : Reachable data init_state
  | step : ∀ (s : State) (dt : ℚ), 0 ≤ dt → Reachable data s →
      Reachable data (stream_step data s dt)

/-- Endpoint `get_data` (app.py lines 124-136): the snapshot `{'data_points':
data_stream[-100:], 'anomaly_flags': anomaly_flags[-100:]}`. -/
def get_data (s : State) : List Reading × List ℕ :=
  (s.data_stream.drop (s.data_stream.length - 100),
   s.anomaly_flags.drop (s.anomaly_flags.length - 100))

/-- The JSON payload of `/api/metrics`. -/
structure Metrics where
  total_points : ℕ
  anomalies_detected : ℕ
  average_processing_time : ℚ
  average_current_value : ℚ
  deriving DecidableEq, Repr

/-- Endpoint `get_metrics` (app.py lines 139-162). -/
def get_metrics (s : State) : Metrics :=
  { total_points := s.data_stream.length
    anomalies_detected := s.anomaly_flags.sum
    average_processing_time :=
      if s.processed_points > 0 then s.total_processing_time / (s.processed_points : ℚ)
      else 0
    average_current_value :=
      if s.data_stream.length > 0 then
        (s.data_stream.map Reading.Current).sum / (s.data_stream.length : ℚ)
      else 0 }

/-- The `current_values` list of a tick (app.py line 93): the values of the
last 50 entries of the stream after the candidate reading has been appended
(the append of line 88 precedes the slice of line 93). -/
def tick_values (data : List Reading) (s : State) : List ℚ :=
  let ds := s.data_stream ++ [data.getD s.current_index default_reading]
  (ds.drop (ds.length - 50)).map Reading.Current

/-- The value of the reading classified by a tick (`data_point['Current']`,
app.py line 98). -/
def tick_candidate (data : List Reading) (s : State) : ℚ :=
  (data.getD s.current_index default_reading).Current

/-- The detector contract exactly as the spec's §4.1 states it, kept for
comparison with the code's behaviour: here `window` is the trailing buffer
*excluding* the candidate ("the window is read before the new point is
appended"; "window excludes the point currently being classified").
`Classify_spec window c t` is false when `len(window) ≤ 50`; otherwise it
tests `|z| > t` with `z = (c - mean)/std` over the last 50 window values and
`z = 0` when `std = 0`.  As everywhere in this file the square root inside
`std` is eliminated by squaring the comparison. -/
def Classify_spec (window : List ℚ) (candidate threshold : ℚ) : Bool :=
  if window.length ≤ 50 then false
  else
    let vals := window.drop (window.length - 50)
    let mean := listMean vals
    let var := sampleVar vals
    if var = 0 then false
    else decide ((candidate - mean) ^ 2 > threshold ^ 2 * var)

/-- Outcome of the engine's startup (app.py lines 74-77 together with
`load_dataset`, lines 26-45): either the loader hits an error and terminates
fatally (`exit(1)`), or the loaded rows — empty or not — become `data` and
the engine enters its loop on the initial globals. -/
inductive EngineStart where
  | fatal : String → EngineStart
  | running : List Reading → State → EngineStart
  deriving DecidableEq

/-- Startup of `stream_data` (app.py lines 74-77): `load_dataset` either
exits fatally on a load error (lines 40-45) or returns the parsed rows —
`[]` included, since an empty-but-parseable source raises no exception — and
the loop begins with the initial globals.  The loader's parse outcome is the
`Except` argument. -/
def stream_data_start (parsed : Except String (List Reading)) : EngineStart :=
  match parsed with
  | Except.error e => EngineStart.fatal e
  | Except.ok rows => EngineStart.running rows init_state

/-! ## Helper lemmas -/

/-- The sample variance is never negative (numerator is a sum of squares and
the denominator is only negative when the numerator is the empty sum). -/
lemma sampleVar_nonneg (xs : List ℚ) : 0 ≤ sampleVar xs := by
  unfold sampleVar
  rcases xs with _ | ⟨x, xs⟩
  · simp
  · apply div_nonneg
    · apply List.sum_nonneg
      intro a ha
      simp only [List.mem_map] at ha
      obtain ⟨b, _, rfl⟩ := ha
      positivity
    · have : (((x :: xs).length : ℚ)) - 1 = (xs.length : ℚ) := by
        push_cast [List.length_cons]
        ring
      rw [this]
      positivity

/-- Justification of the square-root elimination: `is_anomaly value mean var`
holds exactly when `|(value - mean) / sqrt var| > z_threshold` over the real
numbers, i.e. exactly when `abs(calculate_z_score(value, mean, std)) >
z_threshold` for `std = sqrt var` (recall that in Lean `x / 0 = 0`, so the
displayed quotient is the z-score also in the degenerate `std = 0` branch of
`calculate_z_score`). -/
lemma is_anomaly_iff_sqrt (value mean var : ℚ) (h : 0 ≤ var) :
    is_anomaly value mean var = true ↔
      |((value : ℝ) - (mean : ℝ)) / Real.sqrt ((var : ℚ) : ℝ)| >
        ((z_threshold : ℚ) : ℝ) := by
  unfold is_anomaly
  rcases eq_or_lt_of_le h with hv | hv
  · rw [if_pos hv.symm, ← hv]
    simp only [Rat.cast_zero, Real.sqrt_zero, div_zero, abs_zero]
    constructor
    · intro hfalse
      exact absurd hfalse (by simp)
    · intro habs
      exact absurd habs (by norm_num [z_threshold])
  · have hvar0 : var ≠ 0 := ne_of_gt hv
    have hsqrt : (0 : ℝ) < Real.sqrt ((var : ℚ) : ℝ) :=
      Real.sqrt_pos.mpr (by exact_mod_cast hv)
    rw [if_neg hvar0]
    simp only [decide_eq_true_eq, gt_iff_lt]
    have hexp : |((value : ℝ) - (mean : ℝ))| * |((value : ℝ) - (mean : ℝ))| =
        (((value - mean) ^ 2 : ℚ) : ℝ) := by
      rw [← abs_mul, abs_mul_self]
      push_cast
      ring
    have hexp2 : ((z_threshold : ℚ) : ℝ) * Real.sqrt ((var : ℚ) : ℝ) *
        (((z_threshold : ℚ) : ℝ) * Real.sqrt ((var : ℚ) : ℝ)) =
        ((z_threshold ^ 2 * var : ℚ) : ℝ) := by
      have hs : Real.sqrt ((var : ℚ) : ℝ) * Real.sqrt ((var : ℚ) : ℝ) =
          ((var : ℚ) : ℝ) :=
        Real.mul_self_sqrt (by exact_mod_cast h)
      push_cast
      nlinarith [hs]
    have hiff : ((z_threshold : ℚ) : ℝ) * Real.sqrt ((var : ℚ) : ℝ) <
          |((value : ℝ) - (mean : ℝ))| ↔
        ((z_threshold : ℚ) : ℝ) * Real.sqrt ((var : ℚ) : ℝ) *
            (((z_threshold : ℚ) : ℝ) * Real.sqrt ((var : ℚ) : ℝ)) <
          |((value : ℝ) - (mean : ℝ))| * |((value : ℝ) - (mean : ℝ))| :=
      mul_self_lt_mul_self_iff
        (mul_nonneg (by norm_num [z_threshold]) (Real.sqrt_nonneg _))
        (abs_nonneg _)
    rw [abs_div, abs_of_pos hsqrt, lt_div_iff₀ hsqrt, hiff, hexp, hexp2,
      Rat.cast_lt]

/-- Function `calculate_z_score` with zero standard deviation is `0` (app.py lines
61-62), hence never exceeds the positive threshold. -/
lemma calculate_z_score_zero_std (value mean : ℚ) :
    calculate_z_score value mean 0 = 0 := by
  simp [calculate_z_score]

/-- The mean of a nonempty constant list is the constant. -/
lemma listMean_const {xs : List ℚ} {c : ℚ} (hne : xs ≠ [])
    (h : ∀ x ∈ xs, x = c) : listMean xs = c := by
  have hlen : (xs.length : ℚ) ≠ 0 := by
    have h0 : xs.length ≠ 0 := fun hl => hne (List.length_eq_zero.mp hl)
    exact_mod_cast h0
  have hrep : xs = List.replicate xs.length c :=
    List.eq_replicate_iff.mpr ⟨rfl, h⟩
  unfold listMean
  conv_lhs => rw [hrep]
  rw [List.sum_replicate, List.length_replicate, nsmul_eq_mul, mul_comm,
    mul_div_assoc, div_self hlen, mul_one]

/-- The sample variance of a constant list is `0`. -/
lemma sampleVar_const {xs : List ℚ} {c : ℚ} (h : ∀ x ∈ xs, x = c) :
    sampleVar xs = 0 := by
  rcases xs with _ | ⟨x, xs⟩
  · simp [sampleVar]
  · have hmean : listMean (x :: xs) = c := listMean_const (by simp) h
    unfold sampleVar
    rw [hmean]
    have : ((x :: xs).map fun y => (y - c) ^ 2).sum = 0 := by
      apply List.sum_eq_zero
      intro y hy
      simp only [List.mem_map] at hy
      obtain ⟨b, hb, rfl⟩ := hy
      rw [h b hb]
      ring
    rw [this, zero_div]

/-- Every flag appended by a tick is `0` or `1` (app.py lines 102/105). -/
lemma tick_flag_zero_or_one (ds : List Reading) (dp : Reading) :
    tick_flag ds dp = 0 ∨ tick_flag ds dp = 1 := by
  unfold tick_flag
  by_cases h : ds.length > 50
  · simp only [if_pos h]
    split
    · exact Or.inr rfl
    · exact Or.inl rfl
  · simp [if_neg h]

/-- For a list of flags that are all `0` or `1`, the Python `sum(...)` equals
the number of `1` entries. -/
lemma sum_eq_count_one {l : List ℕ} (h : ∀ f ∈ l, f = 0 ∨ f = 1) :
    l.sum = l.count 1 := by
  induction l with
  | nil => simp
  | cons a l ih =>
    have hrest := ih (fun f hf => h f (List.mem_cons_of_mem a hf))
    rcases h a (List.mem_cons_self a l) with h0 | h1
    · subst h0
      simp [List.count_cons, hrest]
    · subst h1
      simp [List.count_cons, hrest, Nat.add_comm]

/-- The master invariant of the shared store, preserved by every critical
section: flags and stream have the same length, the processed count and the
cursor both equal the stream length, and every flag is `0` or `1`. -/
lemma reachable_inv {data : List Reading} {s : State} (h : Reachable data s) :
    s.anomaly_flags.length = s.data_stream.length ∧
      s.processed_points = s.data_stream.length ∧
      s.data_stream.length = s.current_index ∧
      ∀ f ∈ s.anomaly_flags, f = 0 ∨ f = 1 := by
  induction h with
  | init => simp [init_state]
  | step s dt _ _ ih =>
    obtain ⟨h1, h2, h3, h4⟩ := ih
    unfold stream_step
    by_cases hc : s.current_index < data.length
    · rw [if_pos hc]
      unfold stream_tick
      refine ⟨?_, ?_, ?_, ?_⟩
      · simp [h1]
      · simp [h2]
      · simp [h3]
      · intro f hf
        simp only [List.mem_append, List.mem_singleton] at hf
        rcases hf with hf | hf
        · exact h4 f hf
        · subst hf
          exact tick_flag_zero_or_one _ _
    · rw [if_neg hc]
      simp [stream_reset, init_state]

/-! ## Claim theorems -/

/-- C1 counterexample: the claim "for every window with `len(window) ≤ 50`
the classification returns not-anomalous regardless of the candidate" is
false.  With a window of exactly 50 prior points (all zero) and candidate
value `1`, the tick flags the candidate as anomalous: the cold-start guard
`len(data_stream) > 50` (line 91) is evaluated only *after* the candidate has
been appended (line 88), so a 50-point history is already classified (here
`z = 0.98 / sqrt(0.02) ≈ 6.93 > 2.3`). -/
theorem cold_start_claim_false :
    (State.mk (List.replicate 50 ⟨"t", 0⟩) (List.replicate 50 0) 0 0
          50).data_stream.length ≤ 50 ∧
      (stream_tick [⟨"t", 1⟩]
            (State.mk (List.replicate 50 ⟨"t", 0⟩) (List.replicate 50 0) 0 0 50)
            0).anomaly_flags.getLast? = some 1 := by
  constructor
  · simp
  · have hflags : (stream_tick [⟨"t", 1⟩]
          (State.mk (List.replicate 50 ⟨"t", 0⟩) (List.replicate 50 0) 0 0 50)
          0).anomaly_flags =
        List.replicate 50 0 ++
          [tick_flag (List.replicate 50 ⟨"t", 0⟩ ++ [⟨"t", 1⟩]) ⟨"t", 1⟩] := rfl
    rw [hflags, List.getLast?_concat]
    norm_num [tick_flag, listMean, sampleVar, is_anomaly, z_threshold,
      List.drop_append_of_le_length, List.drop_replicate, List.sum_replicate,
      List.map_replicate]

/-- C1 (amended): the cold-start policy returns not-anomalous (appends flag
`0`) whenever the window of prior points holds at most 49 readings — i.e.
whenever the stream still holds at most 50 points once the candidate has been
appended — regardless of the candidate value. -/
theorem cold_start_flag_zero (data : List Reading) (s : State) (dt : ℚ)
    (h : s.data_stream.length ≤ 49) :
    (stream_tick data s dt).anomaly_flags = s.anomaly_flags ++ [0] := by
  have hflag : tick_flag
      (s.data_stream ++ [data.getD s.current_index default_reading])
      (data.getD s.current_index default_reading) = 0 := by
    unfold tick_flag
    rw [if_neg]
    simp only [List.length_append, List.length_cons, List.length_nil,
      gt_iff_lt, not_lt]
    omega
  show s.anomaly_flags ++
      [tick_flag (s.data_stream ++ [data.getD s.current_index default_reading])
        (data.getD s.current_index default_reading)] =
    s.anomaly_flags ++ [0]
  rw [hflag]

/-- C1 (amended) witness: from the empty initial stream the first tick flags
`0`. -/
theorem cold_start_flag_zero_witness :
    init_state.data_stream.length ≤ 49 ∧
      (stream_tick [⟨"t", 1⟩] init_state 0).anomaly_flags =
        init_state.anomaly_flags ++ [0] :=
  ⟨by simp [init_state],
    cold_start_flag_zero [⟨"t", 1⟩] init_state 0 (by simp [init_state])⟩

/-- C5: at every externally observable instant — i.e. in every state of the
shared store reachable at a lock boundary, which is all a snapshot operation
can observe — the anomaly-flag list and the stream buffer have the same
length. -/
theorem flags_length_eq_stream_length {data : List Reading} {s : State}
    (h : Reachable data s) :
    s.anomaly_flags.length = s.data_stream.length :=
  (reachable_inv h).1

/-- C5 witness: the state after one engine tick from startup. -/
theorem flags_length_eq_stream_length_witness :
    (stream_step [⟨"a", 3⟩] init_state 1).anomaly_flags.length =
      (stream_step [⟨"a", 3⟩] init_state 1).data_stream.length :=
  flags_length_eq_stream_length
    (Reachable.step init_state 1 (by norm_num) Reachable.init)

/-- C6: when the cursor has reached the end of the reading source, the next
critical section is the single atomic cycle reset: it sets the cursor to 0,
empties the stream buffer and the flag list and zeroes both processing
statistics, so the next observable snapshot shows a stream of length 0 and a
processed count of 0. -/
theorem cycle_reset_atomic (data : List Reading) (s : State) (dt : ℚ)
    (h : s.current_index = data.length) :
    stream_step data s dt = init_state ∧
      (stream_step data s dt).current_index = 0 ∧
      (stream_step data s dt).data_stream = [] ∧
      (stream_step data s dt).anomaly_flags = [] ∧
      (stream_step data s dt).total_processing_time = 0 ∧
      (stream_step data s dt).processed_points = 0 ∧
      (get_metrics (stream_step data s dt)).total_points = 0 ∧
      (get_data (stream_step data s dt)).1 = [] := by
  have hstep : stream_step data s dt = init_state := by
    unfold stream_step
    rw [if_neg (by omega)]
    rfl
  rw [hstep]
  refine ⟨rfl, rfl, rfl, rfl, rfl, rfl, rfl, rfl⟩

/-- C6 witness: a one-element source whose single reading has been processed
(cursor 1) resets on the next transition. -/
theorem cycle_reset_atomic_witness :
    (State.mk [⟨"a", 3⟩] [0] 1 5 1).current_index =
        ([⟨"a", 3⟩] : List Reading).length ∧
      stream_step [⟨"a", 3⟩] (State.mk [⟨"a", 3⟩] [0] 1 5 1) 7 = init_state :=
  ⟨rfl, (cycle_reset_atomic [⟨"a", 3⟩] (State.mk [⟨"a", 3⟩] [0] 1 5 1) 7 rfl).1⟩

/-- C10: at every externally observable instant the processed count, the
stream-buffer length and the cursor coincide: each tick advances all three by
one inside the same critical section and the cycle reset zeroes all three
together. -/
theorem processed_eq_length_eq_cursor {data : List Reading} {s : State}
    (h : Reachable data s) :
    s.processed_points = s.data_stream.length ∧
      s.data_stream.length = s.current_index :=
  ⟨(reachable_inv h).2.1, (reachable_inv h).2.2.1⟩

/-- C10 witness: the state after a tick and the subsequent cycle reset. -/
theorem processed_eq_length_eq_cursor_witness :
    (stream_step [⟨"a", 3⟩] (stream_step [⟨"a", 3⟩] init_state 1)
          2).processed_points =
        (stream_step [⟨"a", 3⟩] (stream_step [⟨"a", 3⟩] init_state 1)
            2).data_stream.length ∧
      (stream_step [⟨"a", 3⟩] (stream_step [⟨"a", 3⟩] init_state 1)
            2).data_stream.length =
        (stream_step [⟨"a", 3⟩] (stream_step [⟨"a", 3⟩] init_state 1)
            2).current_index :=
  processed_eq_length_eq_cursor
    (Reachable.step (stream_step [⟨"a", 3⟩] init_state 1) 2 (by norm_num)
      (Reachable.step init_state 1 (by norm_num) Reachable.init))

/-- C2 counterexample: the claim that the classification statistics are
computed over the trailing window of the stream as it stood *before* the new
reading is appended (excluding the point being classified) is false.  With 51
prior readings all of value 5 and candidate 100, the claimed pre-append
semantics (`Classify_spec`) sees a flat 50-value window (std = 0, z = 0) and
returns not-anomalous, but the code appends first (line 88 precedes the slice
of line 93), so its statistics are over `5^49 ++ [100]` and the tick flags the
point as anomalous. -/
theorem window_excludes_candidate_claim_false :
    Classify_spec
        ((List.replicate 51 (⟨"t", 5⟩ : Reading)).map Reading.Current) 100
        z_threshold = false ∧
      (stream_tick [⟨"t", 100⟩]
            (State.mk (List.replicate 51 ⟨"t", 5⟩) (List.replicate 51 0) 0 0 51)
            0).anomaly_flags.getLast? = some 1 := by
  constructor
  · norm_num [Classify_spec, listMean, sampleVar, List.map_replicate,
      List.drop_replicate, List.sum_replicate]
  · have hflags : (stream_tick [⟨"t", 100⟩]
          (State.mk (List.replicate 51 ⟨"t", 5⟩) (List.replicate 51 0) 0 0 51)
          0).anomaly_flags =
        List.replicate 51 0 ++
          [tick_flag (List.replicate 51 ⟨"t", 5⟩ ++ [⟨"t", 100⟩]) ⟨"t", 100⟩] :=
      rfl
    rw [hflags, List.getLast?_concat]
    norm_num [tick_flag, listMean, sampleVar, is_anomaly, z_threshold,
      List.drop_append_of_le_length, List.drop_replicate, List.sum_replicate,
      List.map_replicate]

/-- C2 (amended): the mean and standard deviation of a tick are computed over
the trailing 50-element window of the stream as it stands *after* the new
reading is appended: the appended flag is the classification against the
appended stream, and the statistics slice (`current_values`, line 93) contains
the point currently being classified as its most recent element. -/
theorem stats_window_includes_candidate (data : List Reading) (s : State)
    (dt : ℚ) :
    (stream_tick data s dt).anomaly_flags =
        s.anomaly_flags ++
          [tick_flag
            (s.data_stream ++ [data.getD s.current_index default_reading])
            (data.getD s.current_index default_reading)] ∧
      (tick_values data s).getLast? = some (tick_candidate data s) := by
  constructor
  · rfl
  · unfold tick_values tick_candidate
    simp only [List.length_append, List.length_cons, List.length_nil]
    rw [List.drop_append_of_le_length (by omega), List.map_append]
    simp only [List.map_cons, List.map_nil]
    exact List.getLast?_concat _

/-- C3 counterexample: the claim "for every window whose last 50 values are
all equal (sample std 0) and `len(window) > 50`, any candidate is
not-anomalous" is false.  51 prior readings of value 7 give a flat last-50
window (sample variance 0), yet candidate 100 is flagged: the statistics are
taken after the append, over `7^49 ++ [100]`, which is not flat. -/
theorem flat_window_claim_false :
    (List.replicate 51 (⟨"t", 7⟩ : Reading)).length > 50 ∧
      sampleVar
        (((List.replicate 51 (⟨"t", 7⟩ : Reading)).map Reading.Current).drop
          ((List.replicate 51 (⟨"t", 7⟩ : Reading)).length - 50)) = 0 ∧
      (stream_tick [⟨"t", 100⟩]
            (State.mk (List.replicate 51 ⟨"t", 7⟩) (List.replicate 51 0) 0 0 51)
            0).anomaly_flags.getLast? = some 1 := by
  refine ⟨by simp, ?_, ?_⟩
  · have h7 : ∀ x ∈ List.replicate 50 (7 : ℚ), x = 7 := fun x hx =>
      (List.mem_replicate.mp hx).2
    simp only [List.map_replicate, List.length_replicate, List.drop_replicate]
    exact sampleVar_const h7
  · have hflags : (stream_tick [⟨"t", 100⟩]
          (State.mk (List.replicate 51 ⟨"t", 7⟩) (List.replicate 51 0) 0 0 51)
          0).anomaly_flags =
        List.replicate 51 0 ++
          [tick_flag (List.replicate 51 ⟨"t", 7⟩ ++ [⟨"t", 100⟩]) ⟨"t", 100⟩] :=
      rfl
    rw [hflags, List.getLast?_concat]
    norm_num [tick_flag, listMean, sampleVar, is_anomaly, z_threshold,
      List.drop_append_of_le_length, List.drop_replicate, List.sum_replicate,
      List.map_replicate]

/-- C3 (amended): past cold start, a tick appends flag 0 whenever the
*appended* 50-element statistics slice is flat, i.e. whenever the last 49
prior values all equal the candidate value: the slice mean is then the
candidate itself, its sample variance is 0, and the z-score with zero
standard deviation is defined as 0 (`calculate_z_score`, lines 61-62), so
the point is never anomalous. -/
theorem flat_appended_window_flag_zero (data : List Reading) (s : State)
    (dt : ℚ) (h1 : 50 < s.data_stream.length)
    (h2 : ∀ r ∈ s.data_stream.drop (s.data_stream.length - 49),
      r.Current = tick_candidate data s) :
    (stream_tick data s dt).anomaly_flags = s.anomaly_flags ++ [0] ∧
      ∀ v m : ℚ, calculate_z_score v m 0 = 0 := by
  refine ⟨?_, fun v m => calculate_z_score_zero_std v m⟩
  have hvals : ∀ x ∈ tick_values data s, x = tick_candidate data s := by
    unfold tick_values
    simp only [List.length_append, List.length_cons, List.length_nil]
    have hn : s.data_stream.length + (0 + 1) - 50 = s.data_stream.length - 49 :=
      by omega
    rw [hn, List.drop_append_of_le_length (by omega), List.map_append]
    intro x hx
    rcases List.mem_append.mp hx with hx | hx
    · obtain ⟨r, hr, rfl⟩ := List.mem_map.mp hx
      exact h2 r hr
    · simp only [List.map_cons, List.map_nil, List.mem_singleton] at hx
      subst hx
      rfl
  have hvar : sampleVar (tick_values data s) = 0 := sampleVar_const hvals
  have hflag : tick_flag
      (s.data_stream ++ [data.getD s.current_index default_reading])
      (data.getD s.current_index default_reading) = 0 := by
    unfold tick_flag
    rw [if_pos (by simp only [List.length_append, List.length_cons,
      List.length_nil]; omega)]
    show (if is_anomaly (data.getD s.current_index default_reading).Current
        (listMean (tick_values data s)) (sampleVar (tick_values data s)) = true
        then (1 : ℕ) else 0) = 0
    rw [hvar]
    simp [is_anomaly]
  show s.anomaly_flags ++
      [tick_flag (s.data_stream ++ [data.getD s.current_index default_reading])
        (data.getD s.current_index default_reading)] =
    s.anomaly_flags ++ [0]
  rw [hflag]

/-- C3 (amended) witness: 51 prior readings of value 5 and candidate 5 (the
flat-slice situation); the tick appends flag 0. -/
theorem flat_appended_window_flag_zero_witness :
    50 < (State.mk (List.replicate 51 ⟨"t", 5⟩) (List.replicate 51 0) 0 0
          51).data_stream.length ∧
      (stream_tick [⟨"t", 5⟩]
            (State.mk (List.replicate 51 ⟨"t", 5⟩) (List.replicate 51 0) 0 0 51)
            0).anomaly_flags =
        (State.mk (List.replicate 51 (⟨"t", 5⟩ : Reading)) (List.replicate 51 0)
            0 0 51).anomaly_flags ++ [0] :=
  ⟨by simp,
    (flat_appended_window_flag_zero [⟨"t", 5⟩]
        (State.mk (List.replicate 51 ⟨"t", 5⟩) (List.replicate 51 0) 0 0 51) 0
        (by simp)
        (by
          intro r hr
          simp only [List.drop_replicate, List.mem_replicate] at hr
          rw [hr.2]
          rfl)).1⟩

/-- C4 counterexample: the claim "past cold start with std ≠ 0 the candidate
is flagged iff `|(candidate - mean)/std| > threshold` with mean and std over
the last 50 values of the (pre-append) window" is false.  Window
`[0, 100] ++ 0^49` has last-50 statistics mean 2, sample variance 200
(std ≈ 14.14), so for candidate 30 the claimed formula gives
`|z| ≈ 1.98 < 2.3`: not anomalous.  The code, whose statistics slice after
the append is `0^49 ++ [30]` (mean 0.6, variance 18), flags it anomalous. -/
theorem zscore_window_claim_false :
    sampleVar
        (((⟨"t", 0⟩ :: ⟨"t", 100⟩ :: List.replicate 49 (⟨"t", 0⟩ : Reading)).map
            Reading.Current).drop
          ((⟨"t", 0⟩ :: ⟨"t", 100⟩ ::
            List.replicate 49 (⟨"t", 0⟩ : Reading)).length - 50)) = 200 ∧
      Classify_spec
        ((⟨"t", 0⟩ :: ⟨"t", 100⟩ :: List.replicate 49 (⟨"t", 0⟩ : Reading)).map
          Reading.Current) 30 z_threshold = false ∧
      (stream_tick [⟨"t", 30⟩]
            (State.mk (⟨"t", 0⟩ :: ⟨"t", 100⟩ :: List.replicate 49 ⟨"t", 0⟩)
              (List.replicate 51 0) 0 0 51)
            0).anomaly_flags.getLast? = some 1 := by
  refine ⟨?_, ?_, ?_⟩
  · norm_num [sampleVar, listMean, List.map_replicate, List.drop_replicate,
      List.sum_replicate]
  · norm_num [Classify_spec, sampleVar, listMean, z_threshold,
      List.map_replicate, List.drop_replicate, List.sum_replicate]
  · have hflags : (stream_tick [⟨"t", 30⟩]
          (State.mk (⟨"t", 0⟩ :: ⟨"t", 100⟩ :: List.replicate 49 ⟨"t", 0⟩)
            (List.replicate 51 0) 0 0 51)
          0).anomaly_flags =
        List.replicate 51 0 ++
          [tick_flag
            ((⟨"t", 0⟩ :: ⟨"t", 100⟩ :: List.replicate 49 ⟨"t", 0⟩) ++
              [⟨"t", 30⟩])
            ⟨"t", 30⟩] := rfl
    rw [hflags, List.getLast?_concat]
    norm_num [tick_flag, listMean, sampleVar, is_anomaly, z_threshold,
      List.drop_append_of_le_length, List.drop_replicate, List.sum_replicate,
      List.map_replicate, List.cons_append, List.drop_succ_cons,
      List.map_append, List.sum_append]

/-- C4 (amended): past cold start (at least 50 prior points, so the appended
stream holds more than 50) the candidate is flagged anomalous iff strictly
`|z| > z_threshold`, with `z = (candidate - mean)/std`, where the mean and
the sample (n-1 denominator) standard deviation `std = sqrt(sampleVar)` are
computed over the last 50 values of the stream *after* the candidate has been
appended (`current_values`, line 93).  When that slice has variance 0 both
sides are false (z-score-0 policy). -/
theorem zscore_appended_window_iff (data : List Reading) (s : State) (dt : ℚ)
    (h : 50 ≤ s.data_stream.length) :
    (stream_tick data s dt).anomaly_flags.getLast? = some 1 ↔
      |((tick_candidate data s : ℚ) : ℝ) -
            ((listMean (tick_values data s) : ℚ) : ℝ)| /
          Real.sqrt ((sampleVar (tick_values data s) : ℚ) : ℝ) >
        ((z_threshold : ℚ) : ℝ) := by
  have hgt : (s.data_stream ++
      [data.getD s.current_index default_reading]).length > 50 := by
    simp only [List.length_append, List.length_cons, List.length_nil]
    omega
  have hlast : (stream_tick data s dt).anomaly_flags.getLast? =
      some (tick_flag
        (s.data_stream ++ [data.getD s.current_index default_reading])
        (data.getD s.current_index default_reading)) := by
    show (s.anomaly_flags ++
        [tick_flag
          (s.data_stream ++ [data.getD s.current_index default_reading])
          (data.getD s.current_index default_reading)]).getLast? = _
    exact List.getLast?_concat _
  have hiff := is_anomaly_iff_sqrt (tick_candidate data s)
    (listMean (tick_values data s)) (sampleVar (tick_values data s))
    (sampleVar_nonneg _)
  rw [abs_div, abs_of_nonneg (Real.sqrt_nonneg _)] at hiff
  rw [hlast, ← hiff]
  have hflagval : tick_flag
      (s.data_stream ++ [data.getD s.current_index default_reading])
      (data.getD s.current_index default_reading) =
      if is_anomaly (tick_candidate data s) (listMean (tick_values data s))
          (sampleVar (tick_values data s)) = true then 1 else 0 := by
    unfold tick_flag
    rw [if_pos hgt]
    rfl
  rw [hflagval]
  by_cases hb : is_anomaly (tick_candidate data s)
      (listMean (tick_values data s)) (sampleVar (tick_values data s)) = true
  · simp [hb]
  · simp [hb]

/-- C4 (amended) witness: the stream `[0, 100] ++ 0^49` with candidate 30. -/
theorem zscore_appended_window_iff_witness :
    50 ≤ (State.mk (⟨"t", 0⟩ :: ⟨"t", 100⟩ :: List.replicate 49 ⟨"t", 0⟩)
          (List.replicate 51 0) 0 0 51).data_stream.length ∧
      ((stream_tick [⟨"t", 30⟩]
            (State.mk (⟨"t", 0⟩ :: ⟨"t", 100⟩ :: List.replicate 49 ⟨"t", 0⟩)
              (List.replicate 51 0) 0 0 51)
            0).anomaly_flags.getLast? = some 1 ↔
        |((tick_candidate [⟨"t", 30⟩]
                (State.mk
                  (⟨"t", 0⟩ :: ⟨"t", 100⟩ :: List.replicate 49 ⟨"t", 0⟩)
                  (List.replicate 51 0) 0 0 51) : ℚ) : ℝ) -
              ((listMean (tick_values [⟨"t", 30⟩]
                  (State.mk
                    (⟨"t", 0⟩ :: ⟨"t", 100⟩ :: List.replicate 49 ⟨"t", 0⟩)
                    (List.replicate 51 0) 0 0 51)) : ℚ) : ℝ)| /
            Real.sqrt ((sampleVar (tick_values [⟨"t", 30⟩]
                (State.mk
                  (⟨"t", 0⟩ :: ⟨"t", 100⟩ :: List.replicate 49 ⟨"t", 0⟩)
                  (List.replicate 51 0) 0 0 51)) : ℚ) : ℝ) >
          ((z_threshold : ℚ) : ℝ)) :=
  ⟨by simp,
    zscore_appended_window_iff [⟨"t", 30⟩]
      (State.mk (⟨"t", 0⟩ :: ⟨"t", 100⟩ :: List.replicate 49 ⟨"t", 0⟩)
        (List.replicate 51 0) 0 0 51) 0 (by simp)⟩

/-- C7: in every externally observable state, the recent-data snapshot
returns exactly the last `min(100, len(StreamBuffer))` entries of the stream
(a suffix of the stream of that length) together with the index-aligned
suffix of the flag list of the same length; in particular it never returns
more than 100 entries and never more than `len(StreamBuffer)` entries. -/
theorem get_recent_snapshot {data : List Reading} {s : State}
    (h : Reachable data s) :
    (get_data s).1.length = min 100 s.data_stream.length ∧
      (get_data s).2.length = (get_data s).1.length ∧
      (get_data s).1 <:+ s.data_stream ∧
      (get_data s).2 <:+ s.anomaly_flags ∧
      (get_data s).1.length ≤ 100 ∧
      (get_data s).1.length ≤ s.data_stream.length := by
  obtain ⟨h1, -, -, -⟩ := reachable_inv h
  unfold get_data
  refine ⟨?_, ?_, List.drop_suffix _ _, List.drop_suffix _ _, ?_, ?_⟩
  · rw [List.length_drop]
    omega
  · rw [List.length_drop, List.length_drop, h1]
  · rw [List.length_drop]
    omega
  · rw [List.length_drop]
    omega

/-- C7 witness: the snapshot after one engine tick from startup. -/
theorem get_recent_snapshot_witness :
    (get_data (stream_step [⟨"a", 3⟩] init_state 1)).1.length =
        min 100 (stream_step [⟨"a", 3⟩] init_state 1).data_stream.length ∧
      (get_data (stream_step [⟨"a", 3⟩] init_state 1)).2.length =
        (get_data (stream_step [⟨"a", 3⟩] init_state 1)).1.length ∧
      (get_data (stream_step [⟨"a", 3⟩] init_state 1)).1 <:+
        (stream_step [⟨"a", 3⟩] init_state 1).data_stream ∧
      (get_data (stream_step [⟨"a", 3⟩] init_state 1)).2 <:+
        (stream_step [⟨"a", 3⟩] init_state 1).anomaly_flags ∧
      (get_data (stream_step [⟨"a", 3⟩] init_state 1)).1.length ≤ 100 ∧
      (get_data (stream_step [⟨"a", 3⟩] init_state 1)).1.length ≤
        (stream_step [⟨"a", 3⟩] init_state 1).data_stream.length :=
  get_recent_snapshot
    (Reachable.step init_state 1 (by norm_num) Reachable.init)

/-- C8: in every externally observable state the metrics snapshot reports
`total_points` = length of the stream, `anomalies_detected` = number of
anomalous (`1`) flags (the code's `sum(anomaly_flags)`, equal to the count
because every flag is 0 or 1), `average_processing_time` =
`total_processing_time / processed_points` with `0` when no point has been
processed, and `average_current_value` = arithmetic mean of all values in the
stream with `0` when the stream is empty. -/
theorem metrics_snapshot_fields {data : List Reading} {s : State}
    (h : Reachable data s) :
    (get_metrics s).total_points = s.data_stream.length ∧
      (get_metrics s).anomalies_detected = s.anomaly_flags.count 1 ∧
      (s.processed_points = 0 → (get_metrics s).average_processing_time = 0) ∧
      (s.processed_points ≠ 0 →
        (get_metrics s).average_processing_time =
          s.total_processing_time / (s.processed_points : ℚ)) ∧
      (s.data_stream = [] → (get_metrics s).average_current_value = 0) ∧
      (s.data_stream ≠ [] →
        (get_metrics s).average_current_value =
          (s.data_stream.map Reading.Current).sum /
            (s.data_stream.length : ℚ)) := by
  obtain ⟨-, -, -, h4⟩ := reachable_inv h
  refine ⟨rfl, sum_eq_count_one h4, ?_, ?_, ?_, ?_⟩
  · intro h0
    simp [get_metrics, h0]
  · intro h0
    show (if s.processed_points > 0 then
        s.total_processing_time / (s.processed_points : ℚ) else 0) = _
    rw [if_pos (Nat.pos_of_ne_zero h0)]
  · intro h0
    simp [get_metrics, h0]
  · intro h0
    show (if s.data_stream.length > 0 then
        (s.data_stream.map Reading.Current).sum / (s.data_stream.length : ℚ)
      else 0) = _
    rw [if_pos (List.length_pos.mpr h0)]

/-- C8 witness: the metrics snapshot after one engine tick from startup. -/
theorem metrics_snapshot_fields_witness :
    (get_metrics (stream_step [⟨"a", 3⟩] init_state 1)).total_points =
        (stream_step [⟨"a", 3⟩] init_state 1).data_stream.length ∧
      (get_metrics (stream_step [⟨"a", 3⟩] init_state 1)).anomalies_detected =
        (stream_step [⟨"a", 3⟩] init_state 1).anomaly_flags.count 1 ∧
      ((stream_step [⟨"a", 3⟩] init_state 1).processed_points = 0 →
        (get_metrics
          (stream_step [⟨"a", 3⟩] init_state 1)).average_processing_time = 0) ∧
      ((stream_step [⟨"a", 3⟩] init_state 1).processed_points ≠ 0 →
        (get_metrics
            (stream_step [⟨"a", 3⟩] init_state 1)).average_processing_time =
          (stream_step [⟨"a", 3⟩] init_state 1).total_processing_time /
            ((stream_step [⟨"a", 3⟩] init_state 1).processed_points : ℚ)) ∧
      ((stream_step [⟨"a", 3⟩] init_state 1).data_stream = [] →
        (get_metrics
          (stream_step [⟨"a", 3⟩] init_state 1)).average_current_value = 0) ∧
      ((stream_step [⟨"a", 3⟩] init_state 1).data_stream ≠ [] →
        (get_metrics
            (stream_step [⟨"a", 3⟩] init_state 1)).average_current_value =
          ((stream_step [⟨"a", 3⟩] init_state 1).data_stream.map
              Reading.Current).sum /
            ((stream_step [⟨"a", 3⟩] init_state 1).data_stream.length : ℚ)) :=
  metrics_snapshot_fields
    (Reachable.step init_state 1 (by norm_num) Reachable.init)

/-- C9 counterexample: the claim "if the Reading Source is empty or fails to
load, the engine fails fast at startup and never enters its replay loop over
empty data" is false for the empty case.  An empty-but-parseable source
raises no exception in `load_dataset`, so startup proceeds normally
(`running`, not `fatal`), and each iteration of the engine loop over the
empty source simply performs the cycle reset and continues: the engine loops
on empty data instead of failing. -/
theorem empty_source_claim_false :
    stream_data_start (Except.ok []) = EngineStart.running [] init_state ∧
      stream_step [] init_state 0 = init_state := by
  constructor
  · rfl
  · rfl

/-- C9 (amended): only a load *failure* (missing file or parse error) aborts
the engine at startup (`exit(1)`, lines 40-45); an empty-but-parseable source
does not abort: startup succeeds with `data = []` and every engine transition
over the empty source is the cycle reset, leaving the initial state — the
engine spins on empty data forever instead of failing fast. -/
theorem load_failure_fatal_empty_source_loops :
    (∀ e : String,
        stream_data_start (Except.error e) = EngineStart.fatal e) ∧
      (∀ rows : List Reading,
        stream_data_start (Except.ok rows) = EngineStart.running rows init_state) ∧
      (∀ dt : ℚ, stream_step [] init_state dt = init_state) := by
  refine ⟨fun e => rfl, fun rows => rfl, fun dt => rfl⟩

end AnomalyApp
